import Mathlib

/-!
Verification of the MDS-AI-Chatbot conversation-orchestration core.

Shallow embedding of:
  * the safety rules and the emergency-detector middleware
    (`config/safety-rules`, `middleware/emergency-detector`),
  * the conversation store (`services/conversation-service`),
  * the chat controller's non-streaming and streaming turn handlers and the
    per-session cancellation map (`controllers/chat-controller`),
  * the staff handoff controller (`controllers/handoff-controller`).

Database state is modelled as in-memory lists of rows; `NOW()` is an explicit
time parameter (milliseconds as `Nat`).  The inference engine is abstracted as
a parameter: the result it would return (and, for streaming, the fragment list
it would emit), with the controller's invocation count recorded in the result.
-/

namespace Chatbot

/-! ## Text utilities

`String.prototype.toLowerCase` and `String.prototype.includes` over ASCII,
as used by the keyword matchers. -/

/-- Lower-case a string character-wise (JS `toLowerCase`, ASCII range). -/
def lowerStr (s : String) : String :=
  ⟨s.data.map Char.toLower⟩

/-- `isPre n h` : the char list `n` is a prefix of `h`. -/
def isPre : List Char → List Char → Bool
  | [], _ => true
  | _ :: _, [] => false
  | a :: as, b :: bs => a == b && isPre as bs

/-- `containsSub h n` : JS `h.includes(n)` — `n` occurs as a contiguous
substring of `h`. -/
def containsSub (h n : String) : Bool :=
  h.data.tails.any (fun t => isPre n.data t)

/-! ## Safety rules (`config/safety-rules.js`) -/

def emergencyKeywords : List String :=
  ["chest pain", "heart attack", "can\x27t breathe", "difficulty breathing",
   "severe bleeding", "choking", "stroke", "seizure", "unconscious",
   "suicidal", "kill myself", "overdose", "severe pain", "anaphylaxis"]

def urgentKeywords : List String :=
  ["high fever", "blood in stool", "blood in urine", "worsening",
   "severe vomiting", "dehydrated", "infection"]

def prohibitedTopics : List String :=
  ["abortion", "euthanasia", "drug synthesis", "self-surgery"]

def restrictedActions : List String :=
  ["prescribe", "diagnosis", "stop taking medication"]

def emergencyResponseMessage : String :=
  "This may be a medical emergency. Call emergency services or go to the nearest ER immediately."

def urgentResponseMessage : String :=
  "Your symptoms suggest you should seek medical care soon."

def refusalResponseMessage : String :=
  "I cannot provide information on this topic. Please speak with a healthcare provider."

def maxMessagesPerSession : Nat := 50

def maxSessionDurationHours : Nat := 24

/-! ## Emergency detector (`middleware/emergency-detector.js`) -/

/-- Result of `detectEmergency`; `response` holds the `message` field of the
canned response object (`null` in the `normal` case). -/
structure EmergencyDetection where
  isEmergency : Bool
  isUrgent : Bool
  priority : String
  matchedKeywords : List String
  response : Option String
deriving Repr, DecidableEq

/-- `detectEmergency(message)` from `middleware/emergency-detector.js`. -/
def detectEmergency (message : String) : EmergencyDetection :=
  let lowerMessage := lowerStr message
  let emergencyMatches :=
    emergencyKeywords.filter (fun keyword => containsSub lowerMessage (lowerStr keyword))
  if emergencyMatches.length > 0 then
    ⟨true, false, "emergency", emergencyMatches, some emergencyResponseMessage⟩
  else
    let urgentMatches :=
      urgentKeywords.filter (fun keyword => containsSub lowerMessage (lowerStr keyword))
    if urgentMatches.length > 0 then
      ⟨false, true, "urgent", urgentMatches, some urgentResponseMessage⟩
    else
      ⟨false, false, "normal", [], none⟩

/-- Result of `detectProhibitedTopic`. -/
structure ProhibitedDetection where
  isProhibited : Bool
  matchedTopics : List String
  response : Option String
deriving Repr, DecidableEq

/-- `detectProhibitedTopic(message)` from `middleware/emergency-detector.js`. -/
def detectProhibitedTopic (message : String) : ProhibitedDetection :=
  let lowerMessage := lowerStr message
  let prohibitedMatches :=
    prohibitedTopics.filter (fun topic => containsSub lowerMessage (lowerStr topic))
  if prohibitedMatches.length > 0 then
    ⟨true, prohibitedMatches, some refusalResponseMessage⟩
  else
    ⟨false, [], none⟩

/-! Diagnosis-language regular expressions of `validateResponse`, implemented
as executable matchers.  JS `\s` is modelled by its ASCII members and `\w` by
`[A-Za-z0-9_]`; the `/i` flag is modelled by matching on the lower-cased
text (the patterns themselves are lower-case ASCII). -/

def wsChar (c : Char) : Bool :=
  c == ' ' || c == '\t' || c == '\n' || c == '\r' ||
  c == Char.ofNat 11 || c == Char.ofNat 12

def wordChar (c : Char) : Bool :=
  let n := c.toNat
  (97 ≤ n && n ≤ 122) || (65 ≤ n && n ≤ 90) || (48 ≤ n && n ≤ 57) || c == '_'

/-- Strip a literal off the front of a char list, or fail. -/
def dropLit : List Char → List Char → Option (List Char)
  | [], l => some l
  | _ :: _, [] => none
  | a :: as, b :: bs => if a == b then dropLit as bs else none

/-- Consume `\s+` (one or more whitespace characters), greedily. -/
def skipWs1 : List Char → Option (List Char)
  | [] => none
  | c :: rest => if wsChar c then some (rest.dropWhile wsChar) else none

/-- After the article alternative: `\s+\w+`. -/
def wsThenWord (l : List Char) : Bool :=
  match skipWs1 l with
  | some (c :: _) => wordChar c
  | _ => false

/-- The `(?:a|an|the)\s+\w+` tail of the diagnosis patterns. -/
def artThenWord (l : List Char) : Bool :=
  ((dropLit ['a'] l).map wsThenWord).getD false ||
  ((dropLit ['a', 'n'] l).map wsThenWord).getD false ||
  ((dropLit ['t', 'h', 'e'] l).map wsThenWord).getD false

/-- Match `<lead>\s+(?:a|an|the)\s+\w+` at the head of `l`. -/
def leadArtWord (lead : String) (l : List Char) : Bool :=
  match dropLit lead.data l with
  | some r =>
    match skipWs1 r with
    | some r2 => artThenWord r2
    | none => false
  | none => false

/-- Match a head-anchored matcher anywhere in the list (regex `test`). -/
def matchesSomewhere (p : List Char → Bool) (l : List Char) : Bool :=
  l.tails.any p

/-- The four `diagnosisPatterns` of `validateResponse`, tested with `/i`. -/
def diagnosisPatternsMatch (response : String) : Bool :=
  let l := (lowerStr response).data
  matchesSomewhere (leadArtWord "you have") l ||
  matchesSomewhere (leadArtWord "this is") l ||
  containsSub (lowerStr response) "you are suffering from" ||
  containsSub (lowerStr response) "diagnosis is"

/-- Result of `validateResponse`. -/
structure ValidationResult where
  isValid : Bool
  violations : List String
  reason : Option String
deriving Repr, DecidableEq

/-- `validateResponse(response)` from `middleware/emergency-detector.js`. -/
def validateResponse (response : String) : ValidationResult :=
  let lowerResponse := lowerStr response
  let restrictedMatches :=
    restrictedActions.filter (fun action => containsSub lowerResponse (lowerStr action))
  if restrictedMatches.length > 0 then
    ⟨false, restrictedMatches, some "Response contains prohibited medical actions"⟩
  else if diagnosisPatternsMatch response then
    ⟨false, ["diagnostic language"], some "Response contains diagnostic statements"⟩
  else
    ⟨true, [], none⟩

/-! ## Data model

Rows of the three tables of `setup-db.sql`, with the fields the core reads or
writes.  Timestamps are milliseconds (`Nat`); metadata is a JSON-ish key/value
bag so that an absent key (`metadata->>'k' IS NULL`) is distinguishable. -/

/-- A JSON value as stored in a message metadata bag. -/
inductive JVal where
  | b (v : Bool)
  | s (v : String)
  | n (v : Nat)
deriving Repr, DecidableEq

/-- A metadata object: association list of keys to values. -/
abbrev Meta := List (String × JVal)

/-- A row of `ai_conversations`. -/
structure Conv where
  id : Nat
  session_id : String
  patient_id : Option Nat
  status : String
  staff_id : Option Nat
  created_at : Nat
  updated_at : Nat
  closed_at : Option Nat
deriving Repr, DecidableEq

/-- A row of `ai_messages`. -/
structure Msg where
  conversation_id : Nat
  role : String
  content : String
  metadata : Meta
  created_at : Nat
deriving Repr, DecidableEq

/-- A row of `ai_handoff_requests`. -/
structure Handoff where
  conversation_id : Nat
  reason : String
  priority : String
  status : String
  assigned_staff_id : Option Nat
  created_at : Nat
deriving Repr, DecidableEq

/-- The chatbot database.  Rows are kept in insertion order; `created_at` is
non-decreasing along each list, so list order realises the store's
`ORDER BY created_at` reads. -/
structure DB where
  conversations : List Conv
  messages : List Msg
  handoffs : List Handoff
deriving Repr, DecidableEq

/-! ## Conversation store (`services/conversation-service.js`) -/

/-- `getConversation`: `SELECT * FROM ai_conversations WHERE session_id = $1`,
`null` when no row matches. -/
def getConversation (db : DB) (sessionId : String) : Option Conv :=
  db.conversations.find? (fun c => c.session_id == sessionId)

/-- `addMessage`: insert the message row and bump the conversation's
`updated_at`. -/
def addMessage (db : DB) (t : Nat) (conversationId : Nat)
    (role content : String) (metadata : Meta) : DB :=
  { db with
    messages := db.messages ++ [⟨conversationId, role, content, metadata, t⟩],
    conversations := db.conversations.map
      (fun c => if c.id == conversationId then { c with updated_at := t } else c) }

/-- `getHistory`: throws `Error('Conversation not found')` on an unknown
session token, else the conversation's messages in ascending creation order,
up to `limit`. -/
def getHistory (db : DB) (sessionId : String) (limit : Nat) :
    Except String (List Msg) :=
  match getConversation db sessionId with
  | none => .error "Conversation not found"
  | some conversation =>
    .ok ((db.messages.filter (fun m => m.conversation_id == conversation.id)).take limit)

/-- `getContextMessages`: empty list (not an error) on an unknown session
token; otherwise the last `maxMessages` messages whose metadata has no
`isGreeting` key, oldest first, projected to role/content. -/
def getContextMessages (db : DB) (sessionId : String) (maxMessages : Nat) :
    List (String × String) :=
  match getConversation db sessionId with
  | none => []
  | some conversation =>
    let rows := db.messages.filter
      (fun m => m.conversation_id == conversation.id &&
        (m.metadata.lookup "isGreeting").isNone)
    ((rows.reverse.take maxMessages).reverse).map (fun m => (m.role, m.content))

/-- `updateStatus`: `UPDATE ... WHERE session_id = $3 RETURNING *`.  Returns
the updated row, or `none` (JS `undefined`) when no row matched — no error is
raised for an unknown token. -/
def updateStatus (db : DB) (t : Nat) (sessionId status : String)
    (staffId : Option Nat) : DB × Option Conv :=
  let conversations := db.conversations.map
    (fun c => if c.session_id == sessionId then
      { c with status := status, staff_id := staffId, updated_at := t } else c)
  let db' : DB := { db with conversations := conversations }
  (db', conversations.find? (fun c => c.session_id == sessionId))

/-- `closeConversation`: unconditionally sets `status='closed'` and
`closed_at=NOW()` on the matching row; `none` and no change when the token is
unknown. -/
def closeConversation (db : DB) (t : Nat) (sessionId : String) :
    DB × Option Conv :=
  let conversations := db.conversations.map
    (fun c => if c.session_id == sessionId then
      { c with status := "closed", closed_at := some t, updated_at := t } else c)
  let db' : DB := { db with conversations := conversations }
  (db', conversations.find? (fun c => c.session_id == sessionId))

/-- Result of `checkLimits`. -/
structure LimitsResult where
  exceeded : Bool
  reason : Option String
deriving Repr, DecidableEq

/-- `checkLimits`: unknown token reports `exceeded` with reason
`'Conversation not found'` (not a thrown error); otherwise exceeded when the
message count reaches the per-session cap or the session age reaches the
maximum duration. -/
def checkLimits (db : DB) (t : Nat) (sessionId : String) : LimitsResult :=
  match getConversation db sessionId with
  | none => ⟨true, some "Conversation not found"⟩
  | some conversation =>
    let messageCount :=
      (db.messages.filter (fun m => m.conversation_id == conversation.id)).length
    if messageCount ≥ maxMessagesPerSession then
      ⟨true, some "Maximum messages reached"⟩
    else if (t - conversation.created_at) / (1000 * 60 * 60) ≥ maxSessionDurationHours then
      ⟨true, some "Maximum session duration reached"⟩
    else
      ⟨false, none⟩

/-! ## Chat controller — non-streaming turn (`controllers/chat-controller.js`)

`isSafetyMode` (from `MEDICAL_SAFETY_MODE`) is a parameter.  The inference
engine is abstracted by a `GenResult` parameter: the value
`llamaService.generateResponse` would resolve to if invoked; the number of
actual invocations is recorded in the result so that engine-freedom is
observable. -/

/-- What the inference engine would return for this turn. -/
structure GenResult where
  content : String
  tokens : Nat
  duration : Nat
  model : String
deriving Repr, DecidableEq

/-- The canned deflection substituted for a generated response that fails
`validateResponse`. -/
def deflectionMessage : String :=
  "I apologize, but I cannot provide a proper response to that. Please consult with a healthcare professional for appropriate guidance."

/-- `createHandoffRequest(conversationId, reason, priority)`: insert a
`pending` handoff row. -/
def createHandoffRequest (db : DB) (t : Nat) (conversationId : Nat)
    (reason priority : String) : DB :=
  { db with handoffs := db.handoffs ++ [⟨conversationId, reason, priority, "pending", none, t⟩] }

/-- The HTTP outcome of a non-streaming turn. -/
inductive ApiOutcome where
  | ok (message : String) (metadata : Meta)
  | httpError (status : Nat) (code : String)
deriving Repr, DecidableEq

/-- Result of one non-streaming turn: the database afterwards, the HTTP
outcome, how many times the engine was invoked, and whether `checkLimits`
ran. -/
structure SendResult where
  db : DB
  outcome : ApiOutcome
  llamaCalls : Nat
  limitsChecked : Bool
deriving Repr, DecidableEq

/-- `ChatController.sendMessage(req, res)`. -/
def sendMessage (safetyMode : Bool) (db : DB) (t : Nat)
    (sessionId message : String) (gen : GenResult) : SendResult :=
  match getConversation db sessionId with
  | none => ⟨db, .httpError 404 "NOT_FOUND", 0, false⟩
  | some conversation =>
    if conversation.status == "staff-taken" then
      ⟨db, .httpError 403 "FORBIDDEN", 0, false⟩
    else if (checkLimits db t sessionId).exceeded then
      ⟨db, .httpError 429 "RATE_LIMITED", 0, true⟩
    else
      let db1 := addMessage db t conversation.id "user" message []
      if !safetyMode then
        -- FAST MODE: skip all safety processing
        let db2 := addMessage db1 t conversation.id "assistant" gen.content
          [("tokens", .n gen.tokens), ("duration", .n gen.duration), ("fastMode", .b true)]
        ⟨db2, .ok gen.content [("tokens", .n gen.tokens), ("duration", .n gen.duration)], 1, true⟩
      else
        -- SAFETY MODE: full emergency/prohibited detection
        let emergencyDetection := detectEmergency message
        let prohibitedDetection := detectProhibitedTopic message
        if emergencyDetection.isEmergency then
          let emergencyMessage := emergencyDetection.response.getD ""
          let db2 := addMessage db1 t conversation.id "assistant" emergencyMessage
            [("safetyOverride", .b true), ("emergencyResponse", .b true),
             ("priority", .s "emergency")]
          let db3 := createHandoffRequest db2 t conversation.id "emergency" "emergency"
          ⟨db3, .ok emergencyMessage [], 0, true⟩
        else if prohibitedDetection.isProhibited then
          let refusalMessage := prohibitedDetection.response.getD ""
          let db2 := addMessage db1 t conversation.id "assistant" refusalMessage
            [("safetyOverride", .b true), ("refusal", .b true)]
          ⟨db2, .ok refusalMessage [], 0, true⟩
        else
          -- context window fetched, engine invoked, response validated
          let validation := validateResponse gen.content
          let deflected := if !validation.isValid then deflectionMessage else gen.content
          let metaV : Meta :=
            if !validation.isValid then
              [("tokens", .n gen.tokens), ("duration", .n gen.duration),
               ("safetyOverride", .b true)]
            else
              [("tokens", .n gen.tokens), ("duration", .n gen.duration)]
          let finalResponse :=
            if emergencyDetection.isUrgent then
              (emergencyDetection.response.getD "") ++ "\n\n" ++ deflected
            else deflected
          let responseMetadata : Meta :=
            if emergencyDetection.isUrgent then metaV ++ [("urgentGuidance", .b true)]
            else metaV
          let db2 := addMessage db1 t conversation.id "assistant" finalResponse responseMetadata
          ⟨db2, .ok finalResponse responseMetadata, 1, true⟩

/-! ## Chat controller — streaming turn

The streaming handler is modelled as the trace of SSE events it writes
(heartbeats omitted) plus the database afterwards.  The single-threaded event
loop is modelled by a `CancelSite` parameter saying at which suspension point,
if any, the cancel endpoint's handler (or the client's disconnect) runs:

* the local `isCancelled` flag of the turn is set only by the disconnect
  handler; the cancel endpoint only flags the `activeSessions` entry and fires
  the `AbortController`;
* an abort while the engine call is pending rejects it with an error whose
  `message` (not `name`) is `'AbortError'`, so the catch block emits an
  `error` event for an endpoint-cancel and nothing for a disconnect;
* an abort after the engine call has settled is a no-op.

A `cancelObserved` marker is placed in the trace at the point the
cancellation handler ran. -/

/-- An SSE event of the streaming turn (plus the cancel-observation marker). -/
inductive SEvent where
  | start
  | token (tok : String) (content : String)
  | done (message : String) (metadata : Meta)
  | errorEv (code : String)
  | cancelObserved
deriving Repr, DecidableEq

/-- Where, relative to the turn's suspension points, cancellation is
observed. -/
inductive CancelSite where
  /-- No cancel call and no disconnect during the turn. -/
  | noCancel
  /-- The cancel endpoint runs while the engine call is pending, after `n`
  fragments have been relayed; `abort()` rejects the pending call. -/
  | duringGen (n : Nat)
  /-- The cancel endpoint runs at the assistant-persistence suspension, after
  the engine call has already resolved; `abort()` is a no-op. -/
  | atPersist
  /-- The client disconnects while the engine call is pending, after `n`
  fragments: the local `isCancelled` flag is set and the call aborted. -/
  | disconnect (n : Nat)
deriving Repr, DecidableEq

/-- The engine's behaviour for the streaming turn: the fragments it would
emit and the result it would resolve with, plus the cancellation site. -/
structure StreamEnv where
  fragments : List String
  final : GenResult
  cancel : CancelSite
deriving Repr, DecidableEq

/-- Result of one streaming turn: database afterwards, emitted event trace,
engine invocation count, and whether the session is still in the
`activeSessions` map when the response ends. -/
structure StreamResult where
  db : DB
  events : List SEvent
  llamaCalls : Nat
  activeAfter : Bool
deriving Repr, DecidableEq

/-- `token` events for a fragment list, each carrying the cumulative content
(`fullContent`), starting from accumulator `acc`. -/
def tokenEvents (acc : String) : List String → List SEvent
  | [] => []
  | f :: rest => .token f (acc ++ f) :: tokenEvents (acc ++ f) rest

/-- `ChatController.sendMessageStream(req, res)`. -/
def sendMessageStream (safetyMode : Bool) (db : DB) (t : Nat)
    (sessionId message : String) (env : StreamEnv) : StreamResult :=
  -- `this.activeSessions.set(sessionId, …)` runs before any validation; the
  -- entry survives unless a path reaches an explicit `delete`.
  match getConversation db sessionId with
  | none => ⟨db, [.errorEv "NOT_FOUND"], 0, true⟩
  | some conversation =>
    if conversation.status == "staff-taken" then
      ⟨db, [.errorEv "FORBIDDEN"], 0, true⟩
    else if (checkLimits db t sessionId).exceeded then
      ⟨db, [.errorEv "RATE_LIMITED"], 0, true⟩
    else
      let db1 := addMessage db t conversation.id "user" message []
      if !safetyMode then
        -- FAST MODE
        match env.cancel with
        | .duringGen n =>
          ⟨db1, [.start] ++ tokenEvents "" (env.fragments.take n) ++
            [.cancelObserved, .errorEv "INTERNAL_ERROR"], 1, false⟩
        | .disconnect n =>
          ⟨db1, [.start] ++ tokenEvents "" (env.fragments.take n) ++
            [.cancelObserved], 1, false⟩
        | .noCancel =>
          let db2 := addMessage db1 t conversation.id "assistant" env.final.content
            [("tokens", .n env.final.tokens), ("duration", .n env.final.duration),
             ("fastMode", .b true), ("streamed", .b true)]
          ⟨db2, [.start] ++ tokenEvents "" env.fragments ++
            [.done env.final.content []], 1, true⟩
        | .atPersist =>
          let db2 := addMessage db1 t conversation.id "assistant" env.final.content
            [("tokens", .n env.final.tokens), ("duration", .n env.final.duration),
             ("fastMode", .b true), ("streamed", .b true)]
          ⟨db2, [.start] ++ tokenEvents "" env.fragments ++
            [.cancelObserved, .done env.final.content []], 1, true⟩
      else
        -- SAFETY MODE
        let emergencyDetection := detectEmergency message
        let prohibitedDetection := detectProhibitedTopic message
        if emergencyDetection.isEmergency then
          let emergencyMessage := emergencyDetection.response.getD ""
          let db2 := addMessage db1 t conversation.id "assistant" emergencyMessage
            [("safetyOverride", .b true), ("emergencyResponse", .b true),
             ("priority", .s "emergency")]
          let db3 := createHandoffRequest db2 t conversation.id "emergency" "emergency"
          ⟨db3, [.start, .token emergencyMessage emergencyMessage,
            .done emergencyMessage
              [("isEmergency", .b true), ("priority", .s "emergency"),
               ("handoffCreated", .b true)]], 0, true⟩
        else if prohibitedDetection.isProhibited then
          let refusalMessage := prohibitedDetection.response.getD ""
          let db2 := addMessage db1 t conversation.id "assistant" refusalMessage
            [("safetyOverride", .b true), ("refusal", .b true)]
          ⟨db2, [.start, .token refusalMessage refusalMessage,
            .done refusalMessage [("isRefusal", .b true)]], 0, true⟩
        else
          let urgentPre :=
            if emergencyDetection.isUrgent then
              (emergencyDetection.response.getD "") ++ "\n\n"
            else ""
          let leading :=
            [SEvent.start] ++
            (if emergencyDetection.isUrgent then [SEvent.token urgentPre urgentPre] else [])
          match env.cancel with
          | .duringGen n =>
            ⟨db1, leading ++ tokenEvents urgentPre (env.fragments.take n) ++
              [.cancelObserved, .errorEv "INTERNAL_ERROR"], 1, false⟩
          | .disconnect n =>
            ⟨db1, leading ++ tokenEvents urgentPre (env.fragments.take n) ++
              [.cancelObserved], 1, false⟩
          | .noCancel =>
            let validation := validateResponse env.final.content
            let finalResponse :=
              if !validation.isValid then deflectionMessage
              else urgentPre ++ env.final.content
            let responseMetadata : Meta :=
              [("tokens", .n env.final.tokens), ("duration", .n env.final.duration),
               ("model", .s env.final.model), ("validated", .b validation.isValid),
               ("streamed", .b true)] ++
              (if !validation.isValid then
                [("safetyOverride", .b true), ("validationFailed", .b true)] else []) ++
              (if emergencyDetection.isUrgent then [("urgentGuidance", .b true)] else [])
            let db2 := addMessage db1 t conversation.id "assistant" finalResponse
              responseMetadata
            ⟨db2, leading ++ tokenEvents urgentPre env.fragments ++
              [.done finalResponse responseMetadata], 1, false⟩
          | .atPersist =>
            let validation := validateResponse env.final.content
            let finalResponse :=
              if !validation.isValid then deflectionMessage
              else urgentPre ++ env.final.content
            let responseMetadata : Meta :=
              [("tokens", .n env.final.tokens), ("duration", .n env.final.duration),
               ("model", .s env.final.model), ("validated", .b validation.isValid),
               ("streamed", .b true)] ++
              (if !validation.isValid then
                [("safetyOverride", .b true), ("validationFailed", .b true)] else []) ++
              (if emergencyDetection.isUrgent then [("urgentGuidance", .b true)] else [])
            let db2 := addMessage db1 t conversation.id "assistant" finalResponse
              responseMetadata
            ⟨db2, leading ++ tokenEvents urgentPre env.fragments ++
              [.cancelObserved, .done finalResponse responseMetadata], 1, false⟩

/-- `ChatController.cancelGeneration`: flags the `activeSessions` entry and
fires its `AbortController`; succeeds trivially when no generation is active.
`activeNow` abstracts `this.activeSessions.get(sessionId)`. -/
def cancelGeneration (activeNow : Bool) : Bool × String :=
  if activeNow then (true, "Generation cancelled successfully")
  else (true, "No active generation to cancel")

/-! ## Handoff controller (`controllers/handoff-controller.js`) -/

/-- Outcome of a staff-side operation. -/
inductive StaffOutcome where
  | success
  | httpError (status : Nat) (code : String)
deriving Repr, DecidableEq

/-- `HandoffController.takeoverChat`: sets the conversation to `staff-taken`
with the caller's staff id, assigns any pending handoff rows, and appends a
system message. -/
def takeoverChat (db : DB) (t : Nat) (sessionId : String)
    (staffId : Option Nat) : DB × StaffOutcome :=
  match staffId with
  | none => (db, .httpError 401 "UNAUTHORIZED")
  | some sid =>
    match getConversation db sessionId with
    | none => (db, .httpError 404 "SESSION_NOT_FOUND")
    | some conversation =>
      let (db1, _) := updateStatus db t sessionId "staff-taken" (some sid)
      let handoffs1 := db1.handoffs.map
        (fun h => if h.conversation_id == conversation.id && h.status == "pending" then
          { h with status := "assigned", assigned_staff_id := some sid } else h)
      let db2 : DB := { db1 with handoffs := handoffs1 }
      let db3 := addMessage db2 t conversation.id "system"
        "A staff member has joined the conversation."
        [("staffId", .n sid), ("action", .s "takeover")]
      (db3, .success)

/-- `HandoffController.releaseChat`: requires the caller to be the assigned
staff member, then returns the conversation to `ai-active` with `staff_id`
cleared, resolves assigned handoff rows, and appends a system message. -/
def releaseChat (db : DB) (t : Nat) (sessionId : String)
    (staffId : Option Nat) : DB × StaffOutcome :=
  match staffId with
  | none => (db, .httpError 401 "UNAUTHORIZED")
  | some sid =>
    match getConversation db sessionId with
    | none => (db, .httpError 404 "SESSION_NOT_FOUND")
    | some conversation =>
      if conversation.staff_id != some sid then
        (db, .httpError 403 "FORBIDDEN")
      else
        let (db1, _) := updateStatus db t sessionId "ai-active" none
        let handoffs1 := db1.handoffs.map
          (fun h => if h.conversation_id == conversation.id && h.status == "assigned" then
            { h with status := "resolved" } else h)
        let db2 : DB := { db1 with handoffs := handoffs1 }
        let db3 := addMessage db2 t conversation.id "system"
          "The conversation has been returned to AI assistance."
          [("staffId", .n sid), ("action", .s "release")]
        (db3, .success)

/-- The conversation invariant claimed by the spec: `staff_id` is non-null
iff `status = staff-taken`. -/
def staffInvariant (c : Conv) : Prop :=
  c.staff_id.isSome = true ↔ c.status = "staff-taken"

instance (c : Conv) : Decidable (staffInvariant c) := by
  unfold staffInvariant; infer_instance

/-! ## Concrete fixtures for witnesses and counterexamples -/

/-- A fresh `ai-active` conversation. -/
def convA : Conv := ⟨1, "s1", none, "ai-active", none, 0, 0, none⟩

/-- Database holding just `convA`. -/
def dbA : DB := ⟨[convA], [], []⟩

/-- The empty database. -/
def dbEmpty : DB := ⟨[], [], []⟩

/-- A conversation owned by staff member 7. -/
def convStaff : Conv := ⟨2, "s2", none, "staff-taken", some 7, 0, 0, none⟩

/-- Database holding just `convStaff`. -/
def dbStaff : DB := ⟨[convStaff], [], []⟩

/-- A closed conversation. -/
def convClosed : Conv := ⟨3, "s3", none, "closed", none, 0, 1, some 1⟩

/-- Database holding just `convClosed`. -/
def dbClosed : DB := ⟨[convClosed], [], []⟩

/-- `convA` with fifty messages already stored: the per-session cap. -/
def dbFull : DB := ⟨[convA], List.replicate 50 ⟨1, "user", "x", [], 0⟩, []⟩

/-- A benign engine result that passes `validateResponse`. -/
def genOk : GenResult := ⟨"Rest and hydrate well.", 7, 120, "llama-3-8b-instruct"⟩

/-- An engine result that `validateResponse` rejects (restricted action). -/
def genBad : GenResult := ⟨"I prescribe rest", 4, 90, "llama-3-8b-instruct"⟩

/-- Streaming environment: benign result, no cancellation. -/
def envPlain : StreamEnv := ⟨["Rest and hydrate well."], genOk, .noCancel⟩

/-- Streaming environment: rejected result, no cancellation. -/
def envBad : StreamEnv := ⟨["I prescribe rest"], genBad, .noCancel⟩

/-- Streaming environment: cancel observed at the persistence suspension. -/
def envCancelPersist : StreamEnv := ⟨["ok"], ⟨"ok", 1, 10, "llama-3-8b-instruct"⟩, .atPersist⟩

/-! ## Helper lemmas on the safety filter -/

lemma filter_length_pos_of_any {α} (p : α → Bool) (l : List α)
    (h : l.any p = true) : (l.filter p).length > 0 := by
  rcases List.any_eq_true.mp h with ⟨x, hx, hpx⟩
  exact List.length_pos.mpr (List.ne_nil_of_mem (List.mem_filter.mpr ⟨hx, hpx⟩))

lemma detectEmergency_of_keyword (message : String)
    (h : (emergencyKeywords.any fun kw =>
      containsSub (lowerStr message) (lowerStr kw)) = true) :
    detectEmergency message =
      ⟨true, false, "emergency",
        emergencyKeywords.filter (fun kw => containsSub (lowerStr message) (lowerStr kw)),
        some emergencyResponseMessage⟩ := by
  have hpos := filter_length_pos_of_any _ _ h
  simp only [detectEmergency]
  rw [if_pos hpos]

lemma detectEmergency_urgent_response (message : String)
    (h : (detectEmergency message).isUrgent = true) :
    (detectEmergency message).response = some urgentResponseMessage ∧
    (detectEmergency message).isEmergency = false := by
  by_cases hem :
    (emergencyKeywords.filter (fun keyword =>
      containsSub (lowerStr message) (lowerStr keyword))).length > 0
  · exfalso
    simp only [detectEmergency] at h
    rw [if_pos hem] at h
    simp at h
  · simp only [detectEmergency] at h ⊢
    rw [if_neg hem] at h ⊢
    by_cases hur :
      (urgentKeywords.filter (fun keyword =>
        containsSub (lowerStr message) (lowerStr keyword))).length > 0
    · rw [if_pos hur]
      exact ⟨rfl, rfl⟩
    · rw [if_neg hur] at h
      simp at h

/-! ## Claims -/

/-- C1: in safety mode, a turn whose message matches an emergency keyword
invokes the inference engine zero times, persists exactly one assistant
message equal to the canned emergency text, and creates exactly one handoff
request with priority `emergency` — in both the non-streaming and the
streaming variant. -/
theorem emergency_short_circuit
    (db : DB) (t : Nat) (sessionId message : String) (gen : GenResult)
    (env : StreamEnv) (conversation : Conv)
    (hconv : getConversation db sessionId = some conversation)
    (hstaff : conversation.status ≠ "staff-taken")
    (hlim : (checkLimits db t sessionId).exceeded = false)
    (hkw : (emergencyKeywords.any fun kw =>
      containsSub (lowerStr message) (lowerStr kw)) = true) :
    (sendMessage true db t sessionId message gen).llamaCalls = 0 ∧
    (sendMessage true db t sessionId message gen).db.messages =
      db.messages ++
        [⟨conversation.id, "user", message, [], t⟩,
         ⟨conversation.id, "assistant", emergencyResponseMessage,
          [("safetyOverride", .b true), ("emergencyResponse", .b true),
           ("priority", .s "emergency")], t⟩] ∧
    (sendMessage true db t sessionId message gen).db.handoffs =
      db.handoffs ++ [⟨conversation.id, "emergency", "emergency", "pending", none, t⟩] ∧
    (sendMessage true db t sessionId message gen).outcome =
      .ok emergencyResponseMessage [] ∧
    (sendMessageStream true db t sessionId message env).llamaCalls = 0 ∧
    (sendMessageStream true db t sessionId message env).db.messages =
      db.messages ++
        [⟨conversation.id, "user", message, [], t⟩,
         ⟨conversation.id, "assistant", emergencyResponseMessage,
          [("safetyOverride", .b true), ("emergencyResponse", .b true),
           ("priority", .s "emergency")], t⟩] ∧
    (sendMessageStream true db t sessionId message env).db.handoffs =
      db.handoffs ++ [⟨conversation.id, "emergency", "emergency", "pending", none, t⟩] ∧
    (sendMessageStream true db t sessionId message env).events =
      [.start, .token emergencyResponseMessage emergencyResponseMessage,
       .done emergencyResponseMessage
         [("isEmergency", .b true), ("priority", .s "emergency"),
          ("handoffCreated", .b true)]] := by
  have hd := detectEmergency_of_keyword message hkw
  have hstf : (conversation.status == "staff-taken") = false := by
    simp [hstaff]
  refine ⟨?_, ?_, ?_, ?_, ?_, ?_, ?_, ?_⟩ <;>
    simp [sendMessage, sendMessageStream, hconv, hstf, hlim, hd,
      addMessage, createHandoffRequest]

theorem emergency_short_circuit_witness :
    (sendMessage true dbA 5 "s1" "I have chest pain" genOk).llamaCalls = 0 ∧
    (sendMessage true dbA 5 "s1" "I have chest pain" genOk).db.messages =
      dbA.messages ++
        [⟨convA.id, "user", "I have chest pain", [], 5⟩,
         ⟨convA.id, "assistant", emergencyResponseMessage,
          [("safetyOverride", .b true), ("emergencyResponse", .b true),
           ("priority", .s "emergency")], 5⟩] ∧
    (sendMessage true dbA 5 "s1" "I have chest pain" genOk).db.handoffs =
      dbA.handoffs ++ [⟨convA.id, "emergency", "emergency", "pending", none, 5⟩] ∧
    (sendMessage true dbA 5 "s1" "I have chest pain" genOk).outcome =
      .ok emergencyResponseMessage [] ∧
    (sendMessageStream true dbA 5 "s1" "I have chest pain" envPlain).llamaCalls = 0 ∧
    (sendMessageStream true dbA 5 "s1" "I have chest pain" envPlain).db.messages =
      dbA.messages ++
        [⟨convA.id, "user", "I have chest pain", [], 5⟩,
         ⟨convA.id, "assistant", emergencyResponseMessage,
          [("safetyOverride", .b true), ("emergencyResponse", .b true),
           ("priority", .s "emergency")], 5⟩] ∧
    (sendMessageStream true dbA 5 "s1" "I have chest pain" envPlain).db.handoffs =
      dbA.handoffs ++ [⟨convA.id, "emergency", "emergency", "pending", none, 5⟩] ∧
    (sendMessageStream true dbA 5 "s1" "I have chest pain" envPlain).events =
      [.start, .token emergencyResponseMessage emergencyResponseMessage,
       .done emergencyResponseMessage
         [("isEmergency", .b true), ("priority", .s "emergency"),
          ("handoffCreated", .b true)]] :=
  emergency_short_circuit dbA 5 "s1" "I have chest pain" genOk envPlain convA
    (by decide) (by decide) (by decide) (by decide)

/-- C2 counterexample: in the streaming variant the raw rejected model text
IS emitted — the generated fragments are relayed as `token` events before
`validateResponse` runs, so an event does carry the raw rejected text (here
`"I prescribe rest"`, rejected for a restricted action).  Only the `done`
event and the persisted message carry the deflection. -/
theorem streaming_token_carries_raw_rejected_text :
    (validateResponse "I prescribe rest").isValid = false ∧
    SEvent.token "I prescribe rest" "I prescribe rest" ∈
      (sendMessageStream true dbA 5 "s1" "hello" envBad).events ∧
    (sendMessageStream true dbA 5 "s1" "hello" envBad).events =
      [.start, .token "I prescribe rest" "I prescribe rest",
       .done deflectionMessage
         [("tokens", .n 4), ("duration", .n 90), ("model", .s "llama-3-8b-instruct"),
          ("validated", .b false), ("streamed", .b true),
          ("safetyOverride", .b true), ("validationFailed", .b true)]] := by
  decide

/-- C2 (amended): when `validateResponse` rejects the generated text (and the
incoming message is classified normal), both variants persist the canned
deflection — never the raw model text — with safety-override metadata, and
the non-streaming response and the streaming `done` event carry the
deflection; the raw text differs from the deflection.  (The streaming `token`
events emitted during generation do carry the raw text; see the
counterexample.) -/
theorem rejected_generation_deflected
    (db : DB) (t : Nat) (sessionId message : String) (gen : GenResult)
    (env : StreamEnv) (conversation : Conv)
    (hconv : getConversation db sessionId = some conversation)
    (hstaff : conversation.status ≠ "staff-taken")
    (hlim : (checkLimits db t sessionId).exceeded = false)
    (hem : (detectEmergency message).isEmergency = false)
    (hurg : (detectEmergency message).isUrgent = false)
    (hpro : (detectProhibitedTopic message).isProhibited = false)
    (hval : (validateResponse gen.content).isValid = false)
    (henv : env.final = gen) (hcancel : env.cancel = .noCancel) :
    gen.content ≠ deflectionMessage ∧
    (sendMessage true db t sessionId message gen).outcome =
      .ok deflectionMessage
        [("tokens", .n gen.tokens), ("duration", .n gen.duration),
         ("safetyOverride", .b true)] ∧
    (sendMessage true db t sessionId message gen).db.messages =
      db.messages ++
        [⟨conversation.id, "user", message, [], t⟩,
         ⟨conversation.id, "assistant", deflectionMessage,
          [("tokens", .n gen.tokens), ("duration", .n gen.duration),
           ("safetyOverride", .b true)], t⟩] ∧
    (sendMessageStream true db t sessionId message env).db.messages =
      db.messages ++
        [⟨conversation.id, "user", message, [], t⟩,
         ⟨conversation.id, "assistant", deflectionMessage,
          [("tokens", .n gen.tokens), ("duration", .n gen.duration),
           ("model", .s gen.model), ("validated", .b false), ("streamed", .b true),
           ("safetyOverride", .b true), ("validationFailed", .b true)], t⟩] ∧
    (sendMessageStream true db t sessionId message env).events =
      [.start] ++ tokenEvents "" env.fragments ++
        [.done deflectionMessage
          [("tokens", .n gen.tokens), ("duration", .n gen.duration),
           ("model", .s gen.model), ("validated", .b false), ("streamed", .b true),
           ("safetyOverride", .b true), ("validationFailed", .b true)]] := by
  have hne : gen.content ≠ deflectionMessage := by
    intro hEq
    have hok : (validateResponse deflectionMessage).isValid = true := by decide
    rw [hEq] at hval
    rw [hval] at hok
    cases hok
  have hstf : (conversation.status == "staff-taken") = false := by
    simp [hstaff]
  refine ⟨hne, ?_, ?_, ?_, ?_⟩ <;>
    simp [sendMessage, sendMessageStream, hconv, hstf, hlim, hem, hurg, hpro,
      hval, henv, hcancel, addMessage]

theorem rejected_generation_deflected_witness :
    genBad.content ≠ deflectionMessage ∧
    (sendMessage true dbA 5 "s1" "hello" genBad).outcome =
      .ok deflectionMessage
        [("tokens", .n genBad.tokens), ("duration", .n genBad.duration),
         ("safetyOverride", .b true)] ∧
    (sendMessage true dbA 5 "s1" "hello" genBad).db.messages =
      dbA.messages ++
        [⟨convA.id, "user", "hello", [], 5⟩,
         ⟨convA.id, "assistant", deflectionMessage,
          [("tokens", .n genBad.tokens), ("duration", .n genBad.duration),
           ("safetyOverride", .b true)], 5⟩] ∧
    (sendMessageStream true dbA 5 "s1" "hello" envBad).db.messages =
      dbA.messages ++
        [⟨convA.id, "user", "hello", [], 5⟩,
         ⟨convA.id, "assistant", deflectionMessage,
          [("tokens", .n genBad.tokens), ("duration", .n genBad.duration),
           ("model", .s genBad.model), ("validated", .b false), ("streamed", .b true),
           ("safetyOverride", .b true), ("validationFailed", .b true)], 5⟩] ∧
    (sendMessageStream true dbA 5 "s1" "hello" envBad).events =
      [.start] ++ tokenEvents "" envBad.fragments ++
        [.done deflectionMessage
          [("tokens", .n genBad.tokens), ("duration", .n genBad.duration),
           ("model", .s genBad.model), ("validated", .b false), ("streamed", .b true),
           ("safetyOverride", .b true), ("validationFailed", .b true)]] :=
  rejected_generation_deflected dbA 5 "s1" "hello" genBad envBad convA
    (by decide) (by decide) (by decide) (by decide) (by decide) (by decide)
    (by decide) (by decide) (by decide)

/-- C3 counterexample: a closed conversation still accepts turns.  The
status checks test only absence and `staff-taken`; a conversation with
status `closed` passes them, so the turn proceeds and reaches the inference
engine in both variants. -/
theorem closed_conversation_accepts_turns :
    convClosed.status = "closed" ∧
    (sendMessage true dbClosed 5 "s3" "hello" genOk).llamaCalls = 1 ∧
    (sendMessage true dbClosed 5 "s3" "hello" genOk).outcome =
      .ok "Rest and hydrate well." [("tokens", .n 7), ("duration", .n 120)] ∧
    (sendMessageStream true dbClosed 5 "s3" "hello" envPlain).llamaCalls = 1 := by
  decide

/-- C3 (amended): a turn is rejected before any other effect when the
conversation is absent (`NOT_FOUND`) or staff-taken (`FORBIDDEN`), and a
staff-owned conversation never reaches the inference engine; a closed
conversation, however, is not rejected by the status checks and can still
accept turns. -/
theorem send_rejects_absent_and_staff_taken
    (safetyMode : Bool) (db : DB) (t : Nat) (sessionId message : String)
    (gen : GenResult) (env : StreamEnv) :
    (getConversation db sessionId = none →
      sendMessage safetyMode db t sessionId message gen =
        ⟨db, .httpError 404 "NOT_FOUND", 0, false⟩ ∧
      sendMessageStream safetyMode db t sessionId message env =
        ⟨db, [.errorEv "NOT_FOUND"], 0, true⟩) ∧
    (∀ conversation, getConversation db sessionId = some conversation →
      conversation.status = "staff-taken" →
      sendMessage safetyMode db t sessionId message gen =
        ⟨db, .httpError 403 "FORBIDDEN", 0, false⟩ ∧
      sendMessageStream safetyMode db t sessionId message env =
        ⟨db, [.errorEv "FORBIDDEN"], 0, true⟩) := by
  constructor
  · intro h
    constructor <;> simp [sendMessage, sendMessageStream, h]
  · intro conversation hc hst
    constructor <;> simp [sendMessage, sendMessageStream, hc, hst]

theorem send_rejects_absent_and_staff_taken_witness :
    (sendMessage true dbEmpty 5 "zz" "hi" genOk =
      ⟨dbEmpty, .httpError 404 "NOT_FOUND", 0, false⟩) ∧
    (sendMessage true dbStaff 5 "s2" "hi" genOk =
      ⟨dbStaff, .httpError 403 "FORBIDDEN", 0, false⟩) :=
  ⟨((send_rejects_absent_and_staff_taken true dbEmpty 5 "zz" "hi" genOk
      envPlain).1 (by decide)).1,
   ((send_rejects_absent_and_staff_taken true dbStaff 5 "s2" "hi" genOk
      envPlain).2 convStaff (by decide) (by decide)).1⟩

/-- C4 counterexample: fast mode does not skip steps 2–3.  With the
per-session message cap reached, a fast-mode turn is rejected
`RATE_LIMITED` — so `checkLimits` runs — and on a normal fast-mode turn the
user's message is persisted. -/
theorem fast_mode_still_limits_and_persists :
    (sendMessage false dbFull 5 "s1" "hi" genOk) =
      ⟨dbFull, .httpError 429 "RATE_LIMITED", 0, true⟩ ∧
    (sendMessageStream false dbFull 5 "s1" "hi" envPlain) =
      ⟨dbFull, [.errorEv "RATE_LIMITED"], 0, true⟩ ∧
    Msg.mk convA.id "user" "hi" [] 5 ∈
      (sendMessage false dbA 5 "s1" "hi" genOk).db.messages := by
  decide

/-- C4 (amended): fast mode skips only the safety processing (classification
of the incoming message and post-generation validation, steps 4–5) — the
status checks, `checkLimits`, and the unconditional persistence of the user's
message still run.  The raw engine output is returned and persisted untouched
for every message and every engine result, with no safety metadata. -/
theorem fast_mode_skips_safety_processing
    (db : DB) (t : Nat) (sessionId message : String) (gen : GenResult)
    (env : StreamEnv) (conversation : Conv)
    (hconv : getConversation db sessionId = some conversation)
    (hstaff : conversation.status ≠ "staff-taken")
    (hlim : (checkLimits db t sessionId).exceeded = false)
    (henv : env.final = gen) (hcancel : env.cancel = .noCancel) :
    (sendMessage false db t sessionId message gen).limitsChecked = true ∧
    (sendMessage false db t sessionId message gen).llamaCalls = 1 ∧
    (sendMessage false db t sessionId message gen).outcome =
      .ok gen.content [("tokens", .n gen.tokens), ("duration", .n gen.duration)] ∧
    (sendMessage false db t sessionId message gen).db.messages =
      db.messages ++
        [⟨conversation.id, "user", message, [], t⟩,
         ⟨conversation.id, "assistant", gen.content,
          [("tokens", .n gen.tokens), ("duration", .n gen.duration),
           ("fastMode", .b true)], t⟩] ∧
    (sendMessageStream false db t sessionId message env).llamaCalls = 1 ∧
    (sendMessageStream false db t sessionId message env).events =
      [.start] ++ tokenEvents "" env.fragments ++ [.done gen.content []] ∧
    (sendMessageStream false db t sessionId message env).db.messages =
      db.messages ++
        [⟨conversation.id, "user", message, [], t⟩,
         ⟨conversation.id, "assistant", gen.content,
          [("tokens", .n gen.tokens), ("duration", .n gen.duration),
           ("fastMode", .b true), ("streamed", .b true)], t⟩] := by
  have hstf : (conversation.status == "staff-taken") = false := by
    simp [hstaff]
  refine ⟨?_, ?_, ?_, ?_, ?_, ?_, ?_⟩ <;>
    simp [sendMessage, sendMessageStream, hconv, hstf, hlim, henv, hcancel,
      addMessage]

theorem fast_mode_skips_safety_processing_witness :
    (sendMessage false dbA 5 "s1" "I have chest pain" genBad).limitsChecked = true ∧
    (sendMessage false dbA 5 "s1" "I have chest pain" genBad).llamaCalls = 1 ∧
    (sendMessage false dbA 5 "s1" "I have chest pain" genBad).outcome =
      .ok genBad.content
        [("tokens", .n genBad.tokens), ("duration", .n genBad.duration)] ∧
    (sendMessage false dbA 5 "s1" "I have chest pain" genBad).db.messages =
      dbA.messages ++
        [⟨convA.id, "user", "I have chest pain", [], 5⟩,
         ⟨convA.id, "assistant", genBad.content,
          [("tokens", .n genBad.tokens), ("duration", .n genBad.duration),
           ("fastMode", .b true)], 5⟩] ∧
    (sendMessageStream false dbA 5 "s1" "I have chest pain" envBad).llamaCalls = 1 ∧
    (sendMessageStream false dbA 5 "s1" "I have chest pain" envBad).events =
      [.start] ++ tokenEvents "" envBad.fragments ++ [.done genBad.content []] ∧
    (sendMessageStream false dbA 5 "s1" "I have chest pain" envBad).db.messages =
      dbA.messages ++
        [⟨convA.id, "user", "I have chest pain", [], 5⟩,
         ⟨convA.id, "assistant", genBad.content,
          [("tokens", .n genBad.tokens), ("duration", .n genBad.duration),
           ("fastMode", .b true), ("streamed", .b true)], 5⟩] :=
  fast_mode_skips_safety_processing dbA 5 "s1" "I have chest pain" genBad
    envBad convA (by decide) (by decide) (by decide) (by decide) (by decide)

/-- C5 counterexample: a cancel call observed at a suspension point after
the engine call has settled (here: at the assistant-persistence await) does
not stop the turn — the turn's local cancelled flag is set only by the
disconnect handler and the abort of a settled call is a no-op — so a `done`
event is written after the cancellation was observed and the assistant
message is persisted and appears in history. -/
theorem cancel_after_engine_settled_not_observed :
    (sendMessageStream true dbA 5 "s1" "hello" envCancelPersist).events =
      [.start, .token "ok" "ok", .cancelObserved,
       .done "ok"
         [("tokens", .n 1), ("duration", .n 10),
          ("model", .s "llama-3-8b-instruct"), ("validated", .b true),
          ("streamed", .b true)]] ∧
    Msg.mk convA.id "assistant" "ok"
      [("tokens", .n 1), ("duration", .n 10),
       ("model", .s "llama-3-8b-instruct"), ("validated", .b true),
       ("streamed", .b true)] 5 ∈
      (sendMessageStream true dbA 5 "s1" "hello" envCancelPersist).db.messages := by
  decide

/-- C5 (amended): when cancellation — an explicit cancel call or a client
disconnect — is observed while the engine call is still pending, no further
`token` or `done` event is written for the turn and no assistant message is
persisted (only the user's message was added); a cancel observed after the
engine call has settled, however, does not prevent the `done` event or the
persistence (see the counterexample). -/
theorem cancel_during_generation_suppresses_output
    (db : DB) (t : Nat) (sessionId message : String)
    (frags : List String) (final : GenResult) (n : Nat) (conversation : Conv)
    (hconv : getConversation db sessionId = some conversation)
    (hstaff : conversation.status ≠ "staff-taken")
    (hlim : (checkLimits db t sessionId).exceeded = false)
    (hem : (detectEmergency message).isEmergency = false)
    (hurg : (detectEmergency message).isUrgent = false)
    (hpro : (detectProhibitedTopic message).isProhibited = false) :
    sendMessageStream true db t sessionId message ⟨frags, final, .duringGen n⟩ =
      ⟨addMessage db t conversation.id "user" message [],
       [.start] ++ tokenEvents "" (frags.take n) ++
         [.cancelObserved, .errorEv "INTERNAL_ERROR"], 1, false⟩ ∧
    sendMessageStream true db t sessionId message ⟨frags, final, .disconnect n⟩ =
      ⟨addMessage db t conversation.id "user" message [],
       [.start] ++ tokenEvents "" (frags.take n) ++ [.cancelObserved],
       1, false⟩ := by
  have hstf : (conversation.status == "staff-taken") = false := by
    simp [hstaff]
  constructor <;>
    simp [sendMessageStream, hconv, hstf, hlim, hem, hurg, hpro]

theorem cancel_during_generation_suppresses_output_witness :
    sendMessageStream true dbA 5 "s1" "hello" ⟨["a", "b"], genOk, .duringGen 1⟩ =
      ⟨addMessage dbA 5 convA.id "user" "hello" [],
       [.start] ++ tokenEvents "" (["a", "b"].take 1) ++
         [.cancelObserved, .errorEv "INTERNAL_ERROR"], 1, false⟩ ∧
    sendMessageStream true dbA 5 "s1" "hello" ⟨["a", "b"], genOk, .disconnect 1⟩ =
      ⟨addMessage dbA 5 convA.id "user" "hello" [],
       [.start] ++ tokenEvents "" (["a", "b"].take 1) ++ [.cancelObserved],
       1, false⟩ :=
  cancel_during_generation_suppresses_output dbA 5 "s1" "hello" ["a", "b"]
    genOk 1 convA (by decide) (by decide) (by decide) (by decide) (by decide)
    (by decide)

/-- C6 counterexample: in the streaming variant, when the generated response
fails validation on an urgent turn, the persisted final response (and the
`done` event) is the bare deflection — the urgent advisory is NOT prepended
to the safety-overridden response, contradicting the claim that it is
prepended to the final response in both variants. -/
theorem streaming_override_drops_urgent_advisory :
    (detectEmergency "I have a high fever").isUrgent = true ∧
    (validateResponse genBad.content).isValid = false ∧
    (sendMessageStream true dbA 5 "s1" "I have a high fever" envBad).events =
      [.start,
       .token (urgentResponseMessage ++ "\n\n") (urgentResponseMessage ++ "\n\n"),
       .token "I prescribe rest"
         (urgentResponseMessage ++ "\n\n" ++ "I prescribe rest"),
       .done deflectionMessage
         [("tokens", .n 4), ("duration", .n 90),
          ("model", .s "llama-3-8b-instruct"), ("validated", .b false),
          ("streamed", .b true), ("safetyOverride", .b true),
          ("validationFailed", .b true), ("urgentGuidance", .b true)]] ∧
    Msg.mk convA.id "assistant" deflectionMessage
      [("tokens", .n 4), ("duration", .n 90),
       ("model", .s "llama-3-8b-instruct"), ("validated", .b false),
       ("streamed", .b true), ("safetyOverride", .b true),
       ("validationFailed", .b true), ("urgentGuidance", .b true)] 5 ∈
      (sendMessageStream true dbA 5 "s1" "I have a high fever" envBad).db.messages ∧
    deflectionMessage ≠ urgentResponseMessage ++ "\n\n" ++ deflectionMessage := by
  decide

/-- C6 (amended): on an urgent (non-emergency) safety-mode turn, the
non-streaming variant prepends the urgent advisory to the (possibly
safety-overridden) final response, and the streaming variant emits the
advisory as its own leading `token` event before generation; but in the
streaming variant the advisory is prepended to the final persisted response
only when validation succeeds — a safety-overridden streaming response is
replaced by the bare deflection without the advisory. -/
theorem urgent_advisory_behaviour
    (db : DB) (t : Nat) (sessionId message : String) (gen : GenResult)
    (env : StreamEnv) (conversation : Conv)
    (hconv : getConversation db sessionId = some conversation)
    (hstaff : conversation.status ≠ "staff-taken")
    (hlim : (checkLimits db t sessionId).exceeded = false)
    (hurg : (detectEmergency message).isUrgent = true)
    (hpro : (detectProhibitedTopic message).isProhibited = false)
    (henv : env.final = gen) (hcancel : env.cancel = .noCancel) :
    (sendMessage true db t sessionId message gen).outcome =
      .ok (urgentResponseMessage ++ "\n\n" ++
            (if (validateResponse gen.content).isValid then gen.content
             else deflectionMessage))
        ((if (validateResponse gen.content).isValid then
            [("tokens", .n gen.tokens), ("duration", .n gen.duration)]
          else
            [("tokens", .n gen.tokens), ("duration", .n gen.duration),
             ("safetyOverride", .b true)]) ++
          [("urgentGuidance", .b true)]) ∧
    (sendMessageStream true db t sessionId message env).events =
      [.start,
       .token (urgentResponseMessage ++ "\n\n") (urgentResponseMessage ++ "\n\n")] ++
        tokenEvents (urgentResponseMessage ++ "\n\n") env.fragments ++
        [.done
          (if (validateResponse gen.content).isValid then
            urgentResponseMessage ++ "\n\n" ++ gen.content
           else deflectionMessage)
          ([("tokens", .n gen.tokens), ("duration", .n gen.duration),
            ("model", .s gen.model),
            ("validated", .b (validateResponse gen.content).isValid),
            ("streamed", .b true)] ++
            (if (validateResponse gen.content).isValid then []
             else [("safetyOverride", .b true), ("validationFailed", .b true)]) ++
            [("urgentGuidance", .b true)])] := by
  obtain ⟨hresp, hem⟩ := detectEmergency_urgent_response message hurg
  have hstf : (conversation.status == "staff-taken") = false := by
    simp [hstaff]
  cases hv : (validateResponse gen.content).isValid <;>
    refine ⟨?_, ?_⟩ <;>
    simp [sendMessage, sendMessageStream, hconv, hstf, hlim, hem, hurg, hpro,
      hresp, henv, hcancel, hv, addMessage, String.append_assoc]

theorem urgent_advisory_behaviour_witness :
    (sendMessage true dbA 5 "s1" "I have a high fever" genBad).outcome =
      .ok (urgentResponseMessage ++ "\n\n" ++
            (if (validateResponse genBad.content).isValid then genBad.content
             else deflectionMessage))
        ((if (validateResponse genBad.content).isValid then
            [("tokens", .n genBad.tokens), ("duration", .n genBad.duration)]
          else
            [("tokens", .n genBad.tokens), ("duration", .n genBad.duration),
             ("safetyOverride", .b true)]) ++
          [("urgentGuidance", .b true)]) ∧
    (sendMessageStream true dbA 5 "s1" "I have a high fever" envBad).events =
      [.start,
       .token (urgentResponseMessage ++ "\n\n") (urgentResponseMessage ++ "\n\n")] ++
        tokenEvents (urgentResponseMessage ++ "\n\n") envBad.fragments ++
        [.done
          (if (validateResponse genBad.content).isValid then
            urgentResponseMessage ++ "\n\n" ++ genBad.content
           else deflectionMessage)
          ([("tokens", .n genBad.tokens), ("duration", .n genBad.duration),
            ("model", .s genBad.model),
            ("validated", .b (validateResponse genBad.content).isValid),
            ("streamed", .b true)] ++
            (if (validateResponse genBad.content).isValid then []
             else [("safetyOverride", .b true), ("validationFailed", .b true)]) ++
            [("urgentGuidance", .b true)])] :=
  urgent_advisory_behaviour dbA 5 "s1" "I have a high fever" genBad envBad
    convA (by decide) (by decide) (by decide) (by decide) (by decide)
    (by decide) (by decide)

/-- C7: the `activeSessions` entry is NOT removed on every conclusion of a
streaming turn.  The entry is registered before any validation, but only the
full-generation completion path and the catch block delete it: an emergency
short-circuit, a prohibited short-circuit, a completed fast-mode turn, and
an early rejection all end the response with the session still in the map
(the spec requires removal on completion to avoid unbounded growth).  The
last conjunct shows the normal completion path does delete, so the missing
deletes are slips, not a different design. -/
theorem active_sessions_entry_leaks :
    (sendMessageStream true dbA 5 "s1" "I have chest pain" envPlain).activeAfter = true ∧
    (sendMessageStream true dbA 5 "s1" "tell me about abortion" envPlain).activeAfter = true ∧
    (sendMessageStream false dbA 5 "s1" "hello" envPlain).activeAfter = true ∧
    (sendMessageStream true dbEmpty 5 "zz" "hello" envPlain).activeAfter = true ∧
    (sendMessageStream true dbA 5 "s1" "hello" envPlain).activeAfter = false := by
  decide

/-- C8 counterexample: conversation-store operations invoked with an unknown
session token do not all fail with a `NotFound` condition — `getContextMessages`
returns an empty result, `closeConversation` and `updateStatus` silently do
nothing and return no row, and `checkLimits` reports an exceeded-limits value
instead of raising a not-found error. -/
theorem store_unknown_token_no_error :
    getContextMessages dbEmpty "zz" 10 = [] ∧
    closeConversation dbEmpty 5 "zz" = (dbEmpty, none) ∧
    updateStatus dbEmpty 5 "zz" "closed" none = (dbEmpty, none) ∧
    checkLimits dbEmpty 5 "zz" = ⟨true, some "Conversation not found"⟩ := by
  decide

/-- Mapping a conditional per-row update over a conversation list in which no
row matches the session token is the identity. -/
lemma map_if_eq_self (l : List Conv) (sid : String)
    (hall : ∀ x ∈ l, (x.session_id == sid) = false) (g : Conv → Conv) :
    l.map (fun c => if c.session_id == sid then g c else c) = l := by
  induction l with
  | nil => rfl
  | cons a as ih =>
    have ha := hall a (List.mem_cons_self a as)
    rw [List.map_cons, if_neg (by simp [ha])]
    rw [ih (fun x hx => hall x (List.mem_cons_of_mem a hx))]

/-- `find?` after a conditional per-row update: the matching row is found in
updated form, provided the update preserves the session token. -/
lemma find?_map_if (l : List Conv) (sid : String) (x : Conv) (g : Conv → Conv)
    (hg : ∀ y, (g y).session_id = y.session_id)
    (hx : l.find? (fun y => y.session_id == sid) = some x) :
    (l.map (fun y => if y.session_id == sid then g y else y)).find?
      (fun y => y.session_id == sid) = some (g x) := by
  induction l with
  | nil => cases hx
  | cons a as ih =>
    cases hp : (a.session_id == sid) with
    | true =>
      have hax : a = x := by
        simp only [List.find?, hp] at hx
        exact Option.some.inj hx
      subst hax
      have hga : ((g a).session_id == sid) = true := by
        rw [hg a]; exact hp
      rw [List.map_cons, if_pos hp]
      simp only [List.find?, hga]
    | false =>
      simp only [List.find?, hp] at hx
      rw [List.map_cons, if_neg (by simp [hp])]
      simp only [List.find?, hp]
      exact ih hx

/-- C8 (amended): on an unknown session token, only `getHistory` fails with a
not-found error; `getContextMessages` returns the empty list,
`closeConversation` and `updateStatus` leave the store unchanged and return
no row, and `checkLimits` reports exceeded with reason
`Conversation not found`. -/
theorem store_unknown_token_behaviour
    (db : DB) (t : Nat) (sessionId status : String) (staffId : Option Nat)
    (lim maxM : Nat)
    (h : getConversation db sessionId = none) :
    getHistory db sessionId lim = .error "Conversation not found" ∧
    getContextMessages db sessionId maxM = [] ∧
    closeConversation db t sessionId = (db, none) ∧
    updateStatus db t sessionId status staffId = (db, none) ∧
    checkLimits db t sessionId = ⟨true, some "Conversation not found"⟩ := by
  have hfind : db.conversations.find? (fun c => c.session_id == sessionId) = none := h
  have hall : ∀ x ∈ db.conversations, (x.session_id == sessionId) = false := by
    intro x hx
    simpa using List.find?_eq_none.mp hfind x hx
  refine ⟨?_, ?_, ?_, ?_, ?_⟩
  · simp only [getHistory, h]
  · simp only [getContextMessages, h]
  · simp only [closeConversation, map_if_eq_self db.conversations sessionId hall, hfind]
  · simp only [updateStatus, map_if_eq_self db.conversations sessionId hall, hfind]
  · simp only [checkLimits, h]

theorem store_unknown_token_behaviour_witness :
    getHistory dbEmpty "zz" 7 = .error "Conversation not found" ∧
    getContextMessages dbEmpty "zz" 10 = [] ∧
    closeConversation dbEmpty 5 "zz" = (dbEmpty, none) ∧
    updateStatus dbEmpty 5 "zz" "closed" none = (dbEmpty, none) ∧
    checkLimits dbEmpty 5 "zz" = ⟨true, some "Conversation not found"⟩ :=
  store_unknown_token_behaviour dbEmpty 5 "zz" "closed" none 7 10 (by decide)

/-- C9 counterexample: closing an already-closed conversation re-stamps
`closed_at` — the first close at time 1 sets `closed_at = 1`, the second
close at time 2 overwrites it with 2, so the first call's timestamp is not
authoritative and `closeConversation` is not idempotent on closed
conversations. -/
theorem double_close_changes_closed_at :
    getConversation (closeConversation dbA 1 "s1").1 "s1" =
      some ⟨1, "s1", none, "closed", none, 0, 1, some 1⟩ ∧
    getConversation (closeConversation (closeConversation dbA 1 "s1").1 2 "s1").1 "s1" =
      some ⟨1, "s1", none, "closed", none, 0, 2, some 2⟩ ∧
    (some 2 : Option Nat) ≠ some 1 := by
  decide

/-- C9 (amended): a second `closeConversation` call on an already-closed
conversation re-stamps `closed_at` (and `updated_at`) with the later call's
time; only the `closed` status is idempotent. -/
theorem close_conversation_restamps
    (db : DB) (t1 t2 : Nat) (sessionId : String) (c : Conv)
    (h : getConversation db sessionId = some c) :
    getConversation (closeConversation db t1 sessionId).1 sessionId =
      some { c with status := "closed", closed_at := some t1, updated_at := t1 } ∧
    getConversation (closeConversation (closeConversation db t1 sessionId).1 t2 sessionId).1
        sessionId =
      some { c with status := "closed", closed_at := some t2, updated_at := t2 } := by
  constructor
  · exact find?_map_if db.conversations sessionId c _ (fun y => rfl) h
  · have h1 := find?_map_if db.conversations sessionId c
      (fun y => { y with status := "closed", closed_at := some t1, updated_at := t1 })
      (fun y => rfl) h
    exact find?_map_if _ sessionId
      ({ c with status := "closed", closed_at := some t1, updated_at := t1 })
      (fun y => { y with status := "closed", closed_at := some t2, updated_at := t2 })
      (fun y => rfl) h1

theorem close_conversation_restamps_witness :
    getConversation (closeConversation dbA 1 "s1").1 "s1" =
      some { convA with status := "closed", closed_at := some 1, updated_at := 1 } ∧
    getConversation (closeConversation (closeConversation dbA 1 "s1").1 2 "s1").1 "s1" =
      some { convA with status := "closed", closed_at := some 2, updated_at := 2 } :=
  close_conversation_restamps dbA 1 2 "s1" convA (by decide)

/-- A conversation currently owned by staff member 7 (same session token as
`convA`), for exercising `releaseChat`. -/
def dbTaken : DB := ⟨[⟨1, "s1", none, "staff-taken", some 7, 0, 0, none⟩], [], []⟩

/-- C10 counterexample: closing a staff-taken conversation leaves `staff_id`
set while the status becomes `closed`, violating the biconditional
`staff_id` non-null iff `status = staff-taken`.  Take over the conversation
as staff member 7, then close it: the resulting record has
`staff_id = some 7` and `status = "closed"`. -/
theorem close_breaks_staff_invariant :
    getConversation (closeConversation (takeoverChat dbA 1 "s1" (some 7)).1 2 "s1").1 "s1" =
      some ⟨1, "s1", none, "closed", some 7, 0, 2, some 2⟩ ∧
    ¬ staffInvariant ⟨1, "s1", none, "closed", some 7, 0, 2, some 2⟩ := by
  decide

/-- C10 (amended): takeover and release preserve the biconditional
`staff_id` non-null iff `status = staff-taken` for every conversation
record, and closing preserves it only when the target conversation is not
staff-taken — closing a staff-taken conversation leaves `staff_id` non-null
with status `closed` (see the counterexample). -/
theorem staff_invariant_preserved
    (db : DB) (t : Nat) (sessionId : String) (staffId : Option Nat)
    (hinv : ∀ c ∈ db.conversations, staffInvariant c) :
    (∀ c ∈ (takeoverChat db t sessionId staffId).1.conversations, staffInvariant c) ∧
    (∀ c ∈ (releaseChat db t sessionId staffId).1.conversations, staffInvariant c) ∧
    ((∀ x ∈ db.conversations, x.session_id = sessionId → x.status ≠ "staff-taken") →
      ∀ c ∈ (closeConversation db t sessionId).1.conversations, staffInvariant c) := by
  refine ⟨?_, ?_, ?_⟩
  · -- takeoverChat
    cases staffId with
    | none => exact hinv
    | some sid =>
      cases hg : getConversation db sessionId with
      | none =>
        simp only [takeoverChat, hg]
        exact hinv
      | some conv =>
        intro c hc
        simp only [takeoverChat, hg, updateStatus, addMessage] at hc
        rcases List.mem_map.mp hc with ⟨b, hb, rfl⟩
        rcases List.mem_map.mp hb with ⟨a, ha, rfl⟩
        have hA := hinv a ha
        simp only [staffInvariant] at hA ⊢
        split_ifs <;> simp_all
  · -- releaseChat
    cases staffId with
    | none => exact hinv
    | some sid =>
      cases hg : getConversation db sessionId with
      | none =>
        simp only [releaseChat, hg]
        exact hinv
      | some conv =>
        by_cases hown : (conv.staff_id != some sid) = true
        · simp only [releaseChat, hg, hown]
          exact hinv
        · intro c hc
          simp only [releaseChat, hg, hown, updateStatus, addMessage,
            Bool.false_eq_true, if_false] at hc
          rcases List.mem_map.mp hc with ⟨b, hb, rfl⟩
          rcases List.mem_map.mp hb with ⟨a, ha, rfl⟩
          have hA := hinv a ha
          simp only [staffInvariant] at hA ⊢
          split_ifs <;> simp_all
  · -- closeConversation, target not staff-taken
    intro hsafe c hc
    simp only [closeConversation] at hc
    rcases List.mem_map.mp hc with ⟨a, ha, rfl⟩
    have hA := hinv a ha
    by_cases h1 : (a.session_id == sessionId) = true
    · have hsid : a.session_id = sessionId := by simpa using h1
      have hns := hsafe a ha hsid
      have hnone : a.staff_id.isSome = false := by
        cases hiso : a.staff_id.isSome
        · rfl
        · exact absurd (hA.mp hiso) hns
      rw [if_pos h1]
      simp only [staffInvariant] at hA ⊢
      simp [hnone]
    · rw [if_neg h1]
      exact hA

theorem staff_invariant_preserved_witness :
    staffInvariant ⟨1, "s1", none, "staff-taken", some 7, 0, 1, none⟩ ∧
    staffInvariant ⟨1, "s1", none, "ai-active", none, 0, 1, none⟩ ∧
    staffInvariant ⟨1, "s1", none, "closed", none, 0, 2, some 2⟩ :=
  ⟨(staff_invariant_preserved dbA 1 "s1" (some 7) (by decide)).1 _ (by decide),
   (staff_invariant_preserved dbTaken 1 "s1" (some 7) (by decide)).2.1 _ (by decide),
   (staff_invariant_preserved dbA 2 "s1" (some 7) (by decide)).2.2 (by decide) _ (by decide)⟩

end Chatbot

example : (Chatbot.detectEmergency "I have chest pain").isEmergency = true := by decide
example : (Chatbot.detectEmergency "I have a high fever").isUrgent = true := by decide
example : (Chatbot.detectEmergency "hello").priority = "normal" := by decide
example : (Chatbot.detectProhibitedTopic "tell me about abortion").isProhibited = true := by decide
example : (Chatbot.validateResponse "I prescribe rest").isValid = false := by decide
example : (Chatbot.validateResponse "You have a cold").isValid = false := by decide
example : (Chatbot.validateResponse "you have fun").isValid = true := by decide
example : (Chatbot.validateResponse "Diagnosis is flu").isValid = false := by decide
example : (Chatbot.validateResponse "rest and hydrate").isValid = true := by decide
